import Mathlib

set_option maxRecDepth 100000

/-!
Shallow embedding of `scripts/build_rom.py`, a PCI Option ROM serializer.

The script declares two `ctypes.Structure`s (`RomHeader` and `PCIR`),
computes offsets and sizes from the payload length, and writes to the output
file, in order: the serialized ROM header, the serialized PCIR record, 0xFF
filler up to `efi_image_offset`, the payload bytes, and zero filler up to
`output_file_size`.

Machine integers are modelled as `Nat` with explicit masking (`% 2^w`) at
every store into a fixed-width ctypes field, matching ctypes' silent
truncation of Python ints.  The caller-supplied vendor/device IDs are `Int`
(Python ints may be negative); ctypes masks them with a Euclidean remainder,
which `Int.emod` matches.  The output file is a `List Nat` of byte values.
-/

/-- A C scalar or array type as ctypes sees it: its byte size and alignment. -/
structure CType where
  size : Nat
  align : Nat

/-- `ctypes.c_uint8`. -/
def cU8 : CType := ⟨1, 1⟩

/-- `ctypes.c_uint16`. -/
def cU16 : CType := ⟨2, 2⟩

/-- `ctypes.c_uint32`. -/
def cU32 : CType := ⟨4, 4⟩

/-- A fixed-size C array `t * n`: element alignment, `n * size` bytes. -/
def cArray (t : CType) (n : Nat) : CType := ⟨t.size * n, t.align⟩

/-- Round `n` up to the next multiple of `a` (C struct field alignment). -/
def alignUp (n a : Nat) : Nat := (n + a - 1) / a * a

/-- End offset after laying the fields out sequentially from offset 0,
aligning each field naturally, as ctypes does by default. -/
def layoutEnd (fields : List CType) : Nat :=
  fields.foldl (fun off t => alignUp off t.align + t.size) 0

/-- Greatest field alignment: the alignment of the whole structure. -/
def maxAlign (fields : List CType) : Nat :=
  fields.foldl (fun a t => max a t.align) 1

/-- `ctypes.sizeof` of a structure with the given `_fields_`: the end offset
of the last field, rounded up to the structure alignment (tail padding). -/
def structSizeof (fields : List CType) : Nat :=
  alignUp (layoutEnd fields) (maxAlign fields)

/-- Storing a Python int into a `c_uint16` field: ctypes masks to 16 bits
(Euclidean, so negative ints wrap: storing -1 yields 0xFFFF). -/
def toU16 (v : Int) : Nat := (v % 65536).toNat

/-- Little-endian bytes of a (pre-masked) `c_uint8` field value. -/
def u8le (v : Nat) : List Nat := [v % 256]

/-- Little-endian bytes of a (pre-masked) `c_uint16` field value. -/
def u16le (v : Nat) : List Nat := [v % 256, v / 256 % 256]

/-- Little-endian bytes of a (pre-masked) `c_uint32` field value. -/
def u32le (v : Nat) : List Nat :=
  [v % 256, v / 256 % 256, v / 65536 % 256, v / 16777216 % 256]

/-- Python's `int.from_bytes(b, byteorder="little")`. -/
def fromBytesLE (b : List Nat) : Nat := b.foldr (fun x acc => x + 256 * acc) 0

/-- The `RomHeader` ctypes structure: field values as stored in memory
(each already masked to its field width). -/
structure RomHeader where
  signature : Nat
  initialization_size : Nat
  efi_signature : Nat
  efi_subsystem : Nat
  efi_machine_type : Nat
  efi_compression_type : Nat
  reserved : List Nat
  efi_image_header_offset : Nat
  pcir_offset : Nat

/-- `RomHeader._fields_` as ctypes layout input. -/
def RomHeader.ctypeFields : List CType :=
  [cU16, cU16, cU32, cU16, cU16, cU16, cArray cU8 8, cU16, cU16]

/-- `ctypes.sizeof(RomHeader)`. -/
def RomHeader.size : Nat := structSizeof RomHeader.ctypeFields

/-- `RomHeader.SIGNATURE`. -/
def RomHeader.SIGNATURE : Nat := 0xAA55

/-- `RomHeader.EFI_SIGNATURE`. -/
def RomHeader.EFI_SIGNATURE : Nat := 0xEF1

/-- `RomHeader.Subsystem.EFI_BOOT_SERVICE_DRIVER`. -/
def Subsystem.EFI_BOOT_SERVICE_DRIVER : Nat := 0x0B

/-- `RomHeader.MachineType.X86_64`. -/
def MachineType.X86_64 : Nat := 0x8664

/-- `RomHeader.__init__`: ctypes zero-initializes the structure memory, then
the listed assignments run; every store masks to the field width. -/
def RomHeader.init : RomHeader :=
  { signature := RomHeader.SIGNATURE % 65536
    initialization_size := 0
    efi_signature := RomHeader.EFI_SIGNATURE % 4294967296
    efi_subsystem := Subsystem.EFI_BOOT_SERVICE_DRIVER % 65536
    efi_machine_type := MachineType.X86_64 % 65536
    efi_compression_type := 0
    reserved := List.replicate 8 0
    efi_image_header_offset := 0
    pcir_offset := RomHeader.size % 65536 }

/-- `write_serialized(rom_header, output)`: the raw memory dump of the
structure — fields in declaration order (all naturally aligned back-to-back
in this layout) followed by tail padding up to `ctypes.sizeof(RomHeader)`. -/
def RomHeader.serialize (h : RomHeader) : List Nat :=
  let raw := u16le h.signature ++ u16le h.initialization_size ++
    u32le h.efi_signature ++ u16le h.efi_subsystem ++ u16le h.efi_machine_type ++
    u16le h.efi_compression_type ++ (h.reserved.map fun b => b % 256) ++
    u16le h.efi_image_header_offset ++ u16le h.pcir_offset
  raw ++ List.replicate (RomHeader.size - raw.length) 0

/-- The `PCIR` ctypes structure: field values as stored in memory. -/
structure PCIR where
  signature : Nat
  vendor_id : Nat
  device_id : Nat
  device_list_offset : Nat
  length : Nat
  revision : Nat
  class_code : List Nat
  image_length : Nat
  code_revision : Nat
  code_type : Nat
  indicator : Nat
  max_runtime_image_length : Nat
  config_utility_code_header_offset : Nat
  dmtfclp_entry_point_offset : Nat

/-- `PCIR._fields_` as ctypes layout input. -/
def PCIR.ctypeFields : List CType :=
  [cU32, cU16, cU16, cU16, cU16, cU8, cArray cU8 3, cU16, cU16, cU8, cU8,
   cU16, cU16, cU16]

/-- `ctypes.sizeof(PCIR)`. -/
def PCIR.size : Nat := structSizeof PCIR.ctypeFields

/-- `PCIR.Indicator.LAST_IMAGE`. -/
def Indicator.LAST_IMAGE : Nat := 0x80

/-- `PCIR.CodeType.EFI_IMAGE`. -/
def CodeType.EFI_IMAGE : Nat := 0x03

/-- `PCIR.Revision.PCI_3_0`. -/
def Revision.PCI_3_0 : Nat := 0x03

/-- `PCIR.__init__(vendor, device)`: zero-initialized memory, then the listed
assignments; `signature` is `int.from_bytes(b"PCIR", "little")` and the
caller-supplied ids are masked to 16 bits by the `c_uint16` stores. -/
def PCIR.init (vendor device : Int) : PCIR :=
  { signature := fromBytesLE [0x50, 0x43, 0x49, 0x52] % 4294967296
    vendor_id := toU16 vendor
    device_id := toU16 device
    device_list_offset := 0
    length := PCIR.size % 65536
    revision := Revision.PCI_3_0 % 256
    class_code := List.replicate 3 0
    image_length := 0
    code_revision := 0
    code_type := CodeType.EFI_IMAGE % 256
    indicator := Indicator.LAST_IMAGE % 256
    max_runtime_image_length := 0
    config_utility_code_header_offset := 0
    dmtfclp_entry_point_offset := 0 }

/-- `write_serialized(pcir, output)`: raw memory dump of the PCIR structure
(its layout has no padding at all, so it is the fields back-to-back, plus a
tail pad of `ctypes.sizeof(PCIR)` minus the raw length, which is zero). -/
def PCIR.serialize (p : PCIR) : List Nat :=
  let raw := u32le p.signature ++ u16le p.vendor_id ++ u16le p.device_id ++
    u16le p.device_list_offset ++ u16le p.length ++ u8le p.revision ++
    (p.class_code.map fun b => b % 256) ++ u16le p.image_length ++
    u16le p.code_revision ++ u8le p.code_type ++ u8le p.indicator ++
    u16le p.max_runtime_image_length ++ u16le p.config_utility_code_header_offset ++
    u16le p.dmtfclp_entry_point_offset
  raw ++ List.replicate (PCIR.size - raw.length) 0

/-- `math.ceil(a / b)` for the exact nonnegative divisions the script performs. -/
def ceilDiv (a b : Nat) : Nat := (a + b - 1) / b

/-- `efi_image_offset = ceil((sizeof(RomHeader) + sizeof(PCIR)) / 512) * 512`. -/
def efi_image_offset : Nat := ceilDiv (RomHeader.size + PCIR.size) 512 * 512

/-- `output_file_size = efi_image_offset + os.stat(input).st_size`, where the
payload length is `n`. -/
def output_file_size (n : Nat) : Nat := efi_image_offset + n

/-- `output_file_sectors = math.ceil(output_file_size / 512)`. -/
def output_file_sectors (n : Nat) : Nat := ceilDiv (output_file_size n) 512

/-- The ROM header as the script populates it for payload length `n`:
`RomHeader()` then the two `c_uint16` stores of `efi_image_header_offset`
and `initialization_size`. -/
def buildRomHeader (n : Nat) : RomHeader :=
  { RomHeader.init with
      efi_image_header_offset := efi_image_offset % 65536
      initialization_size := output_file_sectors n % 65536 }

/-- The PCIR record as the script populates it: `PCIR(vendor, device)` then
the `c_uint16` store of `image_length`. -/
def buildPCIR (vendor device : Int) (n : Nat) : PCIR :=
  { PCIR.init vendor device with image_length := output_file_sectors n % 65536 }

/-- File content after the first two writes: serialized ROM header then
serialized PCIR record (`write_serialized(rom_header, output)` and
`write_serialized(pcir, output)`). -/
def written2 (vendor device : Int) (n : Nat) : List Nat :=
  RomHeader.serialize (buildRomHeader n) ++ PCIR.serialize (buildPCIR vendor device n)

/-- File content after `output.write(b"\xff" * (efi_image_offset - output.tell()))`:
`output.tell()` is the length written so far.  Python's `bytes * k` is empty
for `k ≤ 0`, which truncated `Nat` subtraction matches. -/
def written3 (vendor device : Int) (n : Nat) : List Nat :=
  written2 vendor device n ++
    List.replicate (efi_image_offset - (written2 vendor device n).length) 0xFF

/-- File content after `output.write(args.input.read())`: the payload bytes. -/
def written4 (vendor device : Int) (payload : List Nat) : List Nat :=
  written3 vendor device payload.length ++ payload

/-- The full byte content of the output file, after the final
`output.write(b"\x00" * (output_file_size - output.tell()))`. -/
def build (vendor device : Int) (payload : List Nat) : List Nat :=
  written4 vendor device payload ++
    List.replicate (output_file_size payload.length - (written4 vendor device payload).length) 0

/-- `ctypes.sizeof(RomHeader)` evaluates to 28: the nine fields end at offset
26 and the structure alignment of 4 adds two tail padding bytes. -/
theorem romHeader_size_eq : RomHeader.size = 28 := by decide

/-- `ctypes.sizeof(PCIR)` evaluates to 28: the fields pack back-to-back with
no padding at all. -/
theorem pcir_size_eq : PCIR.size = 28 := by decide

/-- `efi_image_offset` evaluates to 512: the 56-byte header block rounded up
to one 512-byte sector. -/
theorem efi_image_offset_eq : efi_image_offset = 512 := by decide

/-- The serialized ROM header is always 28 bytes long. -/
theorem romHeader_serialize_build_length (n : Nat) :
    (RomHeader.serialize (buildRomHeader n)).length = 28 := by
  simp [RomHeader.serialize, buildRomHeader, RomHeader.init, u16le, u32le,
    romHeader_size_eq]

/-- The serialized PCIR record is always 28 bytes long. -/
theorem pcir_serialize_build_length (v d : Int) (n : Nat) :
    (PCIR.serialize (buildPCIR v d n)).length = 28 := by
  simp [PCIR.serialize, buildPCIR, PCIR.init, u16le, u32le, u8le, pcir_size_eq]

/-- The two serialized records occupy the first 56 bytes. -/
theorem written2_length (v d : Int) (n : Nat) : (written2 v d n).length = 56 := by
  simp [written2, romHeader_serialize_build_length, pcir_serialize_build_length]

/-- The 0xFF filler write appends exactly 456 bytes. -/
theorem written3_eq (v d : Int) (n : Nat) :
    written3 v d n = written2 v d n ++ List.replicate 456 0xFF := by
  unfold written3
  rw [written2_length, efi_image_offset_eq]

/-- After the 0xFF filler the file is exactly 512 bytes long. -/
theorem written3_length (v d : Int) (n : Nat) : (written3 v d n).length = 512 := by
  rw [written3_eq]
  simp [written2_length]

/-- After the payload write the file is `512 + n` bytes long. -/
theorem written4_length (v d : Int) (p : List Nat) :
    (written4 v d p).length = 512 + p.length := by
  simp [written4, written3_length]

/-- The final zero-filler write appends nothing: the file already has
`output_file_size` bytes, so the output is headers, filler and payload. -/
theorem build_eq (v d : Int) (p : List Nat) :
    build v d p = written3 v d p.length ++ p := by
  unfold build
  rw [written4_length]
  have h : output_file_size p.length - (512 + p.length) = 0 := by
    simp [output_file_size, efi_image_offset_eq]
  rw [h]
  simp [written4]

/-- The output file, decomposed into its four regions. -/
theorem build_decomp (v d : Int) (p : List Nat) :
    build v d p =
      RomHeader.serialize (buildRomHeader p.length) ++
        (PCIR.serialize (buildPCIR v d p.length) ++ (List.replicate 456 0xFF ++ p)) := by
  rw [build_eq, written3_eq]
  simp [written2, List.append_assoc]

/-- Dropping the 28 ROM-header bytes exposes the PCIR record. -/
theorem build_drop28 (v d : Int) (p : List Nat) :
    (build v d p).drop 28 =
      PCIR.serialize (buildPCIR v d p.length) ++ (List.replicate 456 0xFF ++ p) := by
  rw [build_decomp]
  exact List.drop_left' (romHeader_serialize_build_length p.length)

/-- Dropping the 56 header-block bytes exposes the 0xFF filler. -/
theorem build_drop56 (v d : Int) (p : List Nat) :
    (build v d p).drop 56 = List.replicate 456 0xFF ++ p := by
  rw [show (56 : Nat) = 28 + 28 from rfl, ← List.drop_drop, build_drop28]
  exact List.drop_left' (pcir_serialize_build_length v d p.length)

/-- Dropping the first 512 bytes exposes the payload, which ends the file. -/
theorem build_drop512 (v d : Int) (p : List Nat) : (build v d p).drop 512 = p := by
  rw [build_eq]
  exact List.drop_left' (written3_length v d p.length)

/-- C1 counterexample: with a 1-byte payload the produced file is 513 bytes
long — not `ceil((44+1)/512)*512 = 512` and not a multiple of 512.  The
header block is 56 bytes (not 44) and the final zero filler only pads up to
`output_file_size = 512 + N`, never to a sector boundary. -/
theorem C1_counterexample :
    (build 0x8086 0x1000 [0x42]).length ≠ ceilDiv (44 + 1) 512 * 512 ∧
    (build 0x8086 0x1000 [0x42]).length % 512 ≠ 0 := by decide

/-- C1 (amended): for every payload of length N and any vendor/device IDs,
the produced file is exactly `efi_image_offset + N = 512 + N` bytes long; it
is a multiple of 512 exactly when N is. -/
theorem C1_amended (v d : Int) (p : List Nat) :
    (build v d p).length = efi_image_offset + p.length ∧ efi_image_offset = 512 := by
  constructor
  · rw [build_eq, efi_image_offset_eq]
    simp [written3_length]
  · exact efi_image_offset_eq

/-- C2: the code at the failing input vendor = 0x10000.  No range check
exists anywhere: the ctypes `c_uint16` store silently masks the ID to 0 and
the 512-byte output file is written in full. -/
theorem C2_code_behavior :
    (buildPCIR 0x10000 0 0).vendor_id = 0 ∧
    (build 0x10000 0 []).length = 512 ∧
    ((build 0x10000 0 []).drop 32).take 2 = [0, 0] := by decide

/-- C3 counterexample: `pcir_offset` is `ctypes.sizeof(RomHeader) = 28`, not
20 — the layout's nine fields end at offset 26 and tail padding brings the
size to 28.  The serialized field at offsets 24–25 reads 28 little-endian. -/
theorem C3_counterexample :
    ¬((buildRomHeader 0).pcir_offset = 20) ∧
    (buildRomHeader 0).pcir_offset = 28 ∧
    ((build 0x8086 0x1000 []).drop 24).take 2 = [28, 0] := by decide

/-- C3 (amended): in every produced ROM `pcir_offset` equals the byte size of
the serialized RomHeader record, which is 28, and the PCIR record directly
follows the ROM header with no gap: the 28 bytes at that offset are exactly
the serialized PCIR record. -/
theorem C3_amended (v d : Int) (p : List Nat) :
    (buildRomHeader p.length).pcir_offset = RomHeader.size ∧
    RomHeader.size = 28 ∧
    ((build v d p).drop (buildRomHeader p.length).pcir_offset).take PCIR.size =
      PCIR.serialize (buildPCIR v d p.length) := by
  have hpo : (buildRomHeader p.length).pcir_offset = 28 := by
    simp [buildRomHeader, RomHeader.init, romHeader_size_eq]
  refine ⟨by rw [hpo, romHeader_size_eq], romHeader_size_eq, ?_⟩
  rw [hpo, pcir_size_eq, build_drop28]
  exact List.take_left' (pcir_serialize_build_length v d p.length)

/-- C4 counterexample: `ctypes.sizeof(PCIR)` is 28, not 24 — the field list
packs to exactly 28 bytes — so the stored `length` field is 28 and the
serialized record is 28 bytes; the field at file offsets 38–39 reads 28. -/
theorem C4_counterexample :
    ¬((buildPCIR 0x8086 0x1000 0).length = 24) ∧
    (buildPCIR 0x8086 0x1000 0).length = 28 ∧
    (PCIR.serialize (buildPCIR 0x8086 0x1000 0)).length = 28 ∧
    ((build 0x8086 0x1000 []).drop 38).take 2 = [28, 0] := by decide

/-- C4 (amended): the PcirRecord has fixed serialized size 28 bytes, and in
every produced ROM its `length` field holds 28, the size of the record. -/
theorem C4_amended (v d : Int) (n : Nat) :
    (buildPCIR v d n).length = PCIR.size ∧
    PCIR.size = 28 ∧
    (PCIR.serialize (buildPCIR v d n)).length = PCIR.size := by
  refine ⟨?_, pcir_size_eq, ?_⟩
  · simp [buildPCIR, PCIR.init, pcir_size_eq]
  · rw [pcir_size_eq]
    exact pcir_serialize_build_length v d n

/-- C5 counterexample: byte 48 of the output lies strictly between 44 and
`efi_image_header_offset = 512` but holds 0x03 (the PCIR `code_type` field),
not 0xFF: the header block really ends at 56, not 44. -/
theorem C5_counterexample :
    ((build 0x8086 0x1000 []).drop 48).take 1 = [0x03] ∧
    ¬(((build 0x8086 0x1000 []).drop 48).take 1 = [0xFF]) ∧
    44 < 48 ∧ 48 < efi_image_offset := by decide

/-- C5 (amended): in every produced ROM, all bytes strictly between byte
offset 56 (the end of the 28+28-byte header block) and
`efi_image_header_offset` equal 0xFF. -/
theorem C5_amended (v d : Int) (p : List Nat) :
    ((build v d p).drop (56 + 1)).take (efi_image_offset - (56 + 1)) =
      List.replicate (efi_image_offset - (56 + 1)) 0xFF := by
  have h5 : efi_image_offset - (56 + 1) = 455 := by decide
  rw [h5, ← List.drop_drop, build_drop56,
    show (456 : Nat) = 455 + 1 from rfl, List.replicate_succ]
  rw [show ((0xFF : Nat) :: List.replicate 455 0xFF) ++ p =
    [0xFF] ++ (List.replicate 455 0xFF ++ p) from by simp]
  rw [List.drop_left' (by rfl : ([0xFF] : List Nat).length = 1)]
  exact List.take_left' (by simp)

/-- C6 counterexample: both fields are `c_uint16` stores, so for a payload of
33553409 bytes (65536 sectors) they hold `65536 % 2^16 = 0`, not the sector
count 65536. -/
theorem C6_counterexample :
    (buildRomHeader 33553409).initialization_size ≠ output_file_sectors 33553409 ∧
    (buildPCIR 0x8086 0x1000 33553409).image_length ≠ output_file_sectors 33553409 ∧
    output_file_sectors 33553409 = 65536 ∧
    (buildRomHeader 33553409).initialization_size = 0 := by decide

/-- C6 (amended): in every produced ROM, `initialization_size` and
`image_length` hold the identical value, namely
`ceil(total_output_size / 512) mod 2^16`. -/
theorem C6_amended (v d : Int) (p : List Nat) :
    (buildRomHeader p.length).initialization_size =
      (buildPCIR v d p.length).image_length ∧
    (buildRomHeader p.length).initialization_size =
      output_file_sectors p.length % 65536 := by
  constructor <;> simp [buildRomHeader, buildPCIR, RomHeader.init, PCIR.init]

/-- C7: the payload appears unmodified at byte offset
`efi_image_header_offset` for exactly N bytes, and `efi_image_offset` is the
smallest multiple of 512 that is at least the header block size — in
practice exactly 512. -/
theorem C7_payload (v d : Int) (p : List Nat) :
    (buildRomHeader p.length).efi_image_header_offset = efi_image_offset ∧
    efi_image_offset = 512 ∧
    ((build v d p).drop efi_image_offset).take p.length = p ∧
    efi_image_offset % 512 = 0 ∧
    RomHeader.size + PCIR.size ≤ efi_image_offset ∧
    efi_image_offset < RomHeader.size + PCIR.size + 512 := by
  refine ⟨?_, efi_image_offset_eq, ?_, by decide, by decide, by decide⟩
  · simp [buildRomHeader, efi_image_offset_eq]
  · rw [efi_image_offset_eq, build_drop512]
    simp

/-- C8: in every produced ROM the four bytes at the offset stored in the ROM
header's `pcir_offset` field are the ASCII bytes P, C, I, R. -/
theorem C8_pcir_signature (v d : Int) (p : List Nat) :
    ((build v d p).drop (buildRomHeader p.length).pcir_offset).take 4 =
      [0x50, 0x43, 0x49, 0x52] := by
  have hpo : (buildRomHeader p.length).pcir_offset = 28 := by
    simp [buildRomHeader, RomHeader.init, romHeader_size_eq]
  have hsig : (buildPCIR v d p.length).signature = 0x52494350 := by
    simp [buildPCIR, PCIR.init, fromBytesLE]
  rw [hpo, build_drop28]
  simp only [PCIR.serialize, List.append_assoc]
  rw [List.take_left' (by simp [u32le] :
    (u32le ((buildPCIR v d p.length).signature)).length = 4)]
  rw [hsig]
  decide

/-- C9: every constant-valued header field holds its specified constant: the
output starts with 0x55 0xAA, the EFI fields hold 0x0EF1/0x000B/0x8664/0 and
8 reserved zero bytes, and the PCIR constants are revision 3, code_type 3,
indicator 0x80 with the remaining fields zero. -/
theorem C9_constants (v d : Int) (p : List Nat) :
    (build v d p).take 2 = [0x55, 0xAA] ∧
    (buildRomHeader p.length).efi_signature = 0x0EF1 ∧
    (buildRomHeader p.length).efi_subsystem = 0x000B ∧
    (buildRomHeader p.length).efi_machine_type = 0x8664 ∧
    (buildRomHeader p.length).efi_compression_type = 0 ∧
    (buildRomHeader p.length).reserved = List.replicate 8 0 ∧
    (buildPCIR v d p.length).revision = 3 ∧
    (buildPCIR v d p.length).code_type = 0x03 ∧
    (buildPCIR v d p.length).indicator = 0x80 ∧
    (buildPCIR v d p.length).device_list_offset = 0 ∧
    (buildPCIR v d p.length).class_code = List.replicate 3 0 ∧
    (buildPCIR v d p.length).code_revision = 0 ∧
    (buildPCIR v d p.length).max_runtime_image_length = 0 ∧
    (buildPCIR v d p.length).config_utility_code_header_offset = 0 ∧
    (buildPCIR v d p.length).dmtfclp_entry_point_offset = 0 := by
  have hsg : (buildRomHeader p.length).signature = 0xAA55 := by
    simp [buildRomHeader, RomHeader.init, RomHeader.SIGNATURE]
  refine ⟨?_, ?_, ?_, ?_, ?_, ?_, ?_, ?_, ?_, ?_, ?_, ?_, ?_, ?_, ?_⟩
  · rw [build_decomp]
    simp only [RomHeader.serialize, List.append_assoc]
    rw [List.take_left' (by simp [u16le] :
      (u16le ((buildRomHeader p.length).signature)).length = 2)]
    rw [hsg]
    decide
  all_goals
    simp [buildRomHeader, buildPCIR, RomHeader.init, PCIR.init,
      RomHeader.EFI_SIGNATURE, Subsystem.EFI_BOOT_SERVICE_DRIVER,
      MachineType.X86_64, Revision.PCI_3_0, CodeType.EFI_IMAGE,
      Indicator.LAST_IMAGE]

/-- C10: the `c_uint16` fields store the supplied/computed values reduced
modulo 2^16 (Euclidean for the possibly-negative Python ints), with no error
on overflow; the vendor ID bytes at file offsets 32–33 are the little-endian
encoding of the masked value. -/
theorem C10_truncation (v d : Int) (p : List Nat) :
    ((buildPCIR v d p.length).vendor_id : Int) = v % 65536 ∧
    ((buildPCIR v d p.length).device_id : Int) = d % 65536 ∧
    (buildRomHeader p.length).initialization_size =
      output_file_sectors p.length % 65536 ∧
    (buildPCIR v d p.length).image_length = output_file_sectors p.length % 65536 ∧
    ((build v d p).drop 32).take 2 = u16le (toU16 v) := by
  refine ⟨?_, ?_, ?_, ?_, ?_⟩
  · simp only [buildPCIR, PCIR.init, toU16]
    exact Int.toNat_of_nonneg (Int.emod_nonneg v (by norm_num))
  · simp only [buildPCIR, PCIR.init, toU16]
    exact Int.toNat_of_nonneg (Int.emod_nonneg d (by norm_num))
  · simp [buildRomHeader, RomHeader.init]
  · simp [buildPCIR, PCIR.init]
  · rw [show (32 : Nat) = 28 + 4 from rfl, ← List.drop_drop, build_drop28]
    simp only [PCIR.serialize, List.append_assoc]
    rw [List.drop_left' (by simp [u32le] :
      (u32le ((buildPCIR v d p.length).signature)).length = 4)]
    rw [List.take_left' (by simp [u16le] :
      (u16le ((buildPCIR v d p.length).vendor_id)).length = 2)]
    simp [buildPCIR, PCIR.init]
